import Mathlib

/-!
# Verification of the Pixoomat layout/widget runtime

Shallow embedding of the widget model, plugin registry, layout manager and
serialization paths of the Pixoomat repository
(`widgets/base_widget.py`, `widgets/plugin_system.py`, `layout_manager.py`,
and the plugin widgets under `widgets/plugins/`).

Modelling conventions:
* Python numbers that can be ints or floats are modelled as `Rat`
  (exact rational arithmetic; float rounding in the default-size scale
  factors is not observable for the screen sizes the program uses).
* Python's untyped property values are the inductive `Value`; a Python
  `dict` of properties is an insertion-ordered association list `PropMap`
  with first-occurrence lookup and replace-in-place update, mirroring
  `dict.__getitem__` / `dict.__setitem__`.
* A raised-and-uncaught Python exception is `Option.none`; code whose
  exceptions are all caught is modelled by a total function.
* `datetime.datetime.now()` is modelled by passing an explicit `now`
  argument; the (at most two) `now()` calls inside a single
  `get_render_data` call are identified.
-/


namespace Pixoomat

/-- Python property values as stored in a widget's `properties` dict:
strings, ints, floats (as exact rationals), bools, `None`, tuples of ints
(RGB / RGBA colors) and lists of strings (the SystemStats `metrics`). -/
inductive Value where
  | vStr (s : String)
  | vInt (n : Int)
  | vFloat (q : Rat)
  | vBool (b : Bool)
  | vNone
  | vTup (l : List Int)
  | vStrList (l : List String)
deriving Repr, DecidableEq

open Value

/-- Python truthiness (`if value:`) for the modelled values. -/
def pyTruthy : Value → Bool
  | vStr s => s ≠ ""
  | vInt n => n ≠ 0
  | vFloat q => q ≠ 0
  | vBool b => b
  | vNone => false
  | vTup l => l ≠ []
  | vStrList l => l ≠ []

/-- Numeric view of a value: Python `int`, `float` and `bool` take part in
arithmetic (`True == 1`); other values raise `TypeError` there. -/
def asNum : Value → Option Rat
  | vInt n => some (n : Rat)
  | vFloat q => some q
  | vBool b => some (if b then 1 else 0)
  | _ => none

/-- Python `len(value)`: defined for sized values, `TypeError` otherwise. -/
def pyLen : Value → Option Nat
  | vStr s => some s.length
  | vTup l => some l.length
  | vStrList l => some l.length
  | _ => none

/-- A widget's `properties` dict: insertion-ordered association list. -/
abbrev PropMap := List (String × Value)

/-- `dict.get(key)`: value at the first (only) occurrence of `key`. -/
def pyGet (m : PropMap) (k : String) : Option Value :=
  (m.find? (fun kv => kv.1 == k)).map (·.2)

/-- `dict.get(key, default)`. -/
def pyGetD (m : PropMap) (k : String) (d : Value) : Value :=
  (pyGet m k).getD d

/-- `dict[key] = value`: replace the value in place if the key is present,
append otherwise (CPython dict update semantics). -/
def pySet (m : PropMap) (k : String) (v : Value) : PropMap :=
  match m with
  | [] => [(k, v)]
  | kv :: rest => if kv.1 == k then (k, v) :: rest else kv :: pySet rest k v

/-- Apply a sequence of `dict[k] = v` updates (left to right). -/
def pySetAll (m : PropMap) (updates : List (String × Value)) : PropMap :=
  updates.foldl (fun acc kv => pySet acc kv.1 kv.2) m

/-- The widget classes of the repository: the built-in `WeatherWidget`
(`widgets/weather_widget.py`) and the seven plugin widget classes under
`widgets/plugins/`. -/
inductive WType where
  | clock | countdown | date | progressBar | simpleText | stopwatch
  | systemStats | weather
deriving Repr, DecidableEq

/-- A `BaseWidget` instance: geometry, layering and refresh attributes plus
the untyped `properties` dict (`BaseWidget.__init__`). Geometry is `Rat`
because Python stores whatever number reaches it (ints in all
serialization paths, floats from some default-size formulas). -/
structure Widget where
  wtype : WType
  x : Rat
  y : Rat
  width : Rat
  height : Rat
  visible : Bool
  zIndex : Int
  updateInterval : Int
  screenSize : Int
  properties : PropMap
deriving Repr, DecidableEq

/-- `BaseWidget.contains_point`: `self.x <= x <= self.x + self.width and
self.y <= y <= self.y + self.height` (inclusive on all four edges). -/
def containsPoint (w : Widget) (px py : Rat) : Bool :=
  w.x ≤ px && px ≤ w.x + w.width && w.y ≤ py && py ≤ w.y + w.height

/-- `BaseWidget.set_property`. -/
def setProperty (w : Widget) (k : String) (v : Value) : Widget :=
  { w with properties := pySet w.properties k v }

/-- `BaseWidget.get_property(key, default)`. -/
def getProperty (w : Widget) (k : String) (d : Value) : Value :=
  pyGetD w.properties k d

/-! ## Layout manager (`layout_manager.py`) -/

/-- `LayoutManager` state: screen size, background color, widget list. -/
structure Layout where
  screenSize : Int
  backgroundColor : Int × Int × Int
  widgets : List Widget
deriving Repr

/-- Insert a widget into a list that is sorted by `z_index`, after all
elements with a smaller key and before the first element with an equal or
larger key.  `insertZ`/`sortZ` implement the stable
`list.sort(key=lambda w: w.z_index)` used by `LayoutManager._sort_widgets`
and `_sorted_widgets` (CPython's sort is stable: elements with equal
`z_index` keep their list order). -/
def insertZ (w : Widget) : List Widget → List Widget
  | [] => [w]
  | a :: rest => if a.zIndex < w.zIndex then a :: insertZ w rest else w :: a :: rest

/-- Stable sort by `z_index` (model of `sorted(widgets, key=lambda w: w.z_index)`). -/
def sortZ : List Widget → List Widget
  | [] => []
  | a :: rest => insertZ a (sortZ rest)

/-- `LayoutManager.add_widget`: append, then re-sort by z-index. -/
def addWidget (l : Layout) (w : Widget) : Layout :=
  { l with widgets := sortZ (l.widgets ++ [w]) }

/-- `LayoutManager.get_widget_at`: walk the z-sorted widget list topmost
first (`reversed(self._sorted_widgets())`) and return the first visible
widget whose bounding box contains the point. -/
def getWidgetAt (l : Layout) (px py : Rat) : Option Widget :=
  (sortZ l.widgets).reverse.find? (fun w => w.visible && containsPoint w px py)

/-- Specification-side definition of the topmost-hit policy, written from
the spec's words: among the visible widgets whose bounding box contains
the point, pick the one with the highest `z_index`, resolving ties toward
the widget that occurs later in the list (later-inserted). -/
def topHit (px py : Rat) : List Widget → Option Widget
  | [] => none
  | w :: rest =>
    match topHit px py rest with
    | none => if w.visible && containsPoint w px py then some w else none
    | some b =>
      if (w.visible && containsPoint w px py) && b.zIndex < w.zIndex then some w
      else some b

/-! ### Properties of the stable z-sort and the topmost-hit search -/

/-- Sortedness by `z_index` (non-decreasing). -/
abbrev ZSorted (l : List Widget) : Prop :=
  List.Sorted (fun a b : Widget => a.zIndex ≤ b.zIndex) l

/-- `WidgetMetadata` (dataclass). -/
structure WidgetMetadata where
  name : String
  description : String
  version : String
  author : String
  category : String
deriving Repr, DecidableEq

/-- A `WidgetPlugin` instance: its metadata and the concrete widget class
its `create_widget` factory instantiates. -/
structure WidgetPlugin where
  metadata : WidgetMetadata
  widgetClass : WType
deriving Repr, DecidableEq

/-- Generic string-keyed dict as an insertion-ordered association list
(used for `PluginManager.plugins` and `PluginManager.widget_classes`). -/
def dictGet {α : Type} (m : List (String × α)) (k : String) : Option α :=
  (m.find? (fun kv => kv.1 == k)).map (·.2)

/-- `dict[key] = value` on a generic string-keyed dict. -/
def dictSet {α : Type} (m : List (String × α)) (k : String) (v : α) :
    List (String × α) :=
  match m with
  | [] => [(k, v)]
  | kv :: rest => if kv.1 == k then (k, v) :: rest else kv :: dictSet rest k v

/-- `PluginManager` state: the `plugins` map (metadata name → plugin) and
the `widget_classes` map (metadata name → concrete widget class). -/
structure PluginManager where
  plugins : List (String × WidgetPlugin)
  widgetClasses : List (String × WType)
deriving Repr, DecidableEq

/-- `PluginManager.register_plugin`: reject a duplicate `(name, version)`
registration with `False`; otherwise store the plugin and the concrete class
of one throwaway widget under the metadata name, returning `True`. -/
def registerPlugin (pm : PluginManager) (p : WidgetPlugin) :
    Bool × PluginManager :=
  let name := p.metadata.name
  match dictGet pm.plugins name with
  | some existing =>
    if existing.metadata.version == p.metadata.version then (false, pm)
    else
      (true, { plugins := dictSet pm.plugins name p,
               widgetClasses := dictSet pm.widgetClasses name p.widgetClass })
  | none =>
      (true, { plugins := dictSet pm.plugins name p,
               widgetClasses := dictSet pm.widgetClasses name p.widgetClass })

/-- The global plugin manager after `get_plugin_manager()` has lazily
loaded every module in `widgets/plugins/`: the seven plugins register the
metadata names below (module order is `os.listdir`; it does not matter for
lookups because the names are distinct). `WeatherWidget` is not a plugin
and is therefore absent. -/
def loadedPluginManager : PluginManager :=
  { plugins :=
      [ ("Clock", ⟨⟨"Clock", "Displays the current time.", "1.0.0",
          "Pixoomat", "Time"⟩, WType.clock⟩),
        ("Countdown", ⟨⟨"Countdown", "Counts down to a specific date and time.",
          "1.0.0", "Pixoomat", "Time"⟩, WType.countdown⟩),
        ("Date", ⟨⟨"Date", "Displays the current date in a configurable format.",
          "1.0.0", "Pixoomat", "Time"⟩, WType.date⟩),
        ("ProgressBar", ⟨⟨"ProgressBar",
          "Display a horizontal progress bar with customizable colors and percentage display",
          "1.0.0", "Pixoomat Team", "Display"⟩, WType.progressBar⟩),
        ("SimpleText", ⟨⟨"SimpleText",
          "Display custom text with configurable colors and font size",
          "1.0.0", "Pixoomat Team", "Display"⟩, WType.simpleText⟩),
        ("Stopwatch", ⟨⟨"Stopwatch",
          "A simple stopwatch with start/stop/reset functionality.",
          "1.0.0", "Pixoomat", "Utility"⟩, WType.stopwatch⟩),
        ("SystemStats", ⟨⟨"SystemStats",
          "Displays system CPU, memory, and disk usage as bar graphs",
          "1.0.0", "Pixoomat Team", "System"⟩, WType.systemStats⟩) ],
    widgetClasses :=
      [ ("Clock", WType.clock), ("Countdown", WType.countdown),
        ("Date", WType.date), ("ProgressBar", WType.progressBar),
        ("SimpleText", WType.simpleText), ("Stopwatch", WType.stopwatch),
        ("SystemStats", WType.systemStats) ] }

/-- `PluginManager.get_widget_class`. -/
def getWidgetClass (pm : PluginManager) (name : String) : Option WType :=
  dictGet pm.widgetClasses name

/-! ## A model of the `datetime` values the widgets use

`datetime.datetime.now()` is passed in explicitly as a `DateTime`
argument. Only naive datetimes occur (timezone-aware strings make
`fromisoformat`-based arithmetic raise `TypeError`, which the stopwatch
catches; the model's parser simply rejects them, which yields the same
fallback behaviour). -/

/-- A naive `datetime.datetime`. -/
structure DateTime where
  year : Int
  month : Int
  day : Int
  hour : Int
  minute : Int
  second : Int
  microsecond : Int
deriving Repr, DecidableEq

/-- Python `int(x)` on a float: truncation toward zero. -/
def pyTrunc (q : Rat) : Int := if q ≥ 0 then ⌊q⌋ else -⌊-q⌋

/-- Days from 1970-01-01 of a civil date (standard days-from-civil
algorithm, Euclidean division). Used only to give datetime subtraction its
meaning; every claim below is settled without evaluating it symbolically. -/
def daysFromCivil (y m d : Int) : Int :=
  let y' := if m ≤ 2 then y - 1 else y
  let era := Int.ediv y' 400
  let yoe := y' - era * 400
  let mp := Int.emod (m + 9) 12
  let doy := Int.ediv (153 * mp + 2) 5 + d - 1
  let doe := yoe * 365 + Int.ediv yoe 4 - Int.ediv yoe 100 + doy
  era * 146097 + doe - 719468

/-- Total microseconds of a datetime since the epoch. -/
def DateTime.toUs (t : DateTime) : Int :=
  ((daysFromCivil t.year t.month t.day * 24 + t.hour) * 60 + t.minute) * 60
      * 1000000 + t.second * 1000000 + t.microsecond

/-- `(a - b).total_seconds()` for two datetimes, as an exact rational. -/
def diffSeconds (a b : DateTime) : Rat :=
  ((a.toUs - b.toUs : Int) : Rat) / 1000000

/-- Whether a year is a leap year (`calendar`/`datetime` rule). -/
def isLeap (y : Int) : Bool :=
  (Int.emod y 4 == 0 && Int.emod y 100 != 0) || Int.emod y 400 == 0

/-- Number of days in a month (`datetime` validation). -/
def daysInMonth (y m : Int) : Int :=
  if m = 2 then (if isLeap y then 29 else 28)
  else if m = 4 ∨ m = 6 ∨ m = 9 ∨ m = 11 then 30
  else 31

/-- Zero-pad the decimal representation of a non-negative integer. -/
def padZeros (width : Nat) (n : Int) : String :=
  let s := toString n
  if s.length < width then String.mk (List.replicate (width - s.length) '0') ++ s
  else s

/-- Python's `"{:02d}".format(n)`: pad to two characters (a sign counts as
a character, matching CPython for this width). -/
def pad2 (n : Int) : String := padZeros 2 n

/-- `datetime.isoformat()` for the values `now()` produces:
`YYYY-MM-DDTHH:MM:SS` with `.ffffff` appended when the microsecond field
is non-zero. -/
def DateTime.isoformat (t : DateTime) : String :=
  padZeros 4 t.year ++ "-" ++ pad2 t.month ++ "-" ++ pad2 t.day ++ "T"
    ++ pad2 t.hour ++ ":" ++ pad2 t.minute ++ ":" ++ pad2 t.second
    ++ (if t.microsecond ≠ 0 then "." ++ padZeros 6 t.microsecond else "")

/-- Digits `'0'..'9'` (CPython's `\d` also accepts other Unicode digits;
that corner is outside this model). -/
def digitsVal (cs : List Char) : Int :=
  cs.foldl (fun acc c => acc * 10 + (c.toNat - '0'.toNat : Int)) 0

/-- Split a leading run of decimal digits off a character list. -/
def takeDigits : List Char → List Char × List Char
  | [] => ([], [])
  | c :: rest =>
    if c.isDigit then
      let (ds, rem) := takeDigits rest
      (c :: ds, rem)
    else ([], c :: rest)

/-- One `\d{1,lo..hi}`-style field of `strptime`: read the maximal digit
run, require its length to be in `[lo, hi]`, and return its value.
(Taking the maximal run is equivalent to the regex with backtracking here
because every field is followed by a non-digit or the end of input.) -/
def parseField (lo hi : Nat) (cs : List Char) : Option (Int × List Char) :=
  let (ds, rem) := takeDigits cs
  if lo ≤ ds.length ∧ ds.length ≤ hi then some (digitsVal ds, rem) else none

/-- Require a literal character. -/
def parseLit (c : Char) : List Char → Option (List Char)
  | [] => none
  | c' :: rest => if c' = c then some rest else none

/-- `datetime.datetime.strptime(s, "%Y-%m-%d %H:%M:%S")`:
four-digit year, one-or-two-digit month/day/hour/minute/second with the
literal separators, the whole string consumed, and the values accepted by
the `datetime` constructor (month 1-12, day within the month, hour 0-23,
minute 0-59, second 0-59, year ≥ 1). `none` models the `ValueError` the
countdown widget catches. -/
def parseYmdHms (s : String) : Option DateTime := do
  let cs := s.data
  let (y, cs) ← parseField 4 4 cs
  let cs ← parseLit '-' cs
  let (mo, cs) ← parseField 1 2 cs
  let cs ← parseLit '-' cs
  let (d, cs) ← parseField 1 2 cs
  let cs ← parseLit ' ' cs
  let (h, cs) ← parseField 1 2 cs
  let cs ← parseLit ':' cs
  let (mi, cs) ← parseField 1 2 cs
  let cs ← parseLit ':' cs
  let (sec, cs) ← parseField 1 2 cs
  if cs = [] ∧ 1 ≤ y ∧ 1 ≤ mo ∧ mo ≤ 12 ∧ 1 ≤ d ∧ d ≤ daysInMonth y mo
      ∧ 0 ≤ h ∧ h ≤ 23 ∧ 0 ≤ mi ∧ mi ≤ 59 ∧ 0 ≤ sec ∧ sec ≤ 59 then
    some ⟨y, mo, d, h, mi, sec, 0⟩
  else none

/-- `datetime.datetime.fromisoformat` restricted to the naive forms the
stopwatch can encounter (`YYYY-MM-DD`, optionally a separator character and
`HH[:MM[:SS[.fff or .ffffff]]]`); timezone suffixes are rejected, which
gives the same caught-exception fallback as the `TypeError` that naive -
aware subtraction would raise. `none` models the `ValueError` the
stopwatch catches. -/
def fromIsoformat (s : String) : Option DateTime := do
  let cs := s.data
  let (y, cs) ← parseField 4 4 cs
  let cs ← parseLit '-' cs
  let (mo, cs) ← parseField 2 2 cs
  let cs ← parseLit '-' cs
  let (d, cs) ← parseField 2 2 cs
  let ok := 1 ≤ y ∧ 1 ≤ mo ∧ mo ≤ 12 ∧ 1 ≤ d ∧ d ≤ daysInMonth y mo
  match cs with
  | [] => if ok then some ⟨y, mo, d, 0, 0, 0, 0⟩ else none
  | _sep :: cs => do
    let (h, cs) ← parseField 2 2 cs
    let (mi, sec, us, cs) ← (do
      match cs with
      | [] => some ((0 : Int), (0 : Int), (0 : Int), ([] : List Char))
      | c :: cs' =>
        if c = ':' then do
          let (mi, cs'') ← parseField 2 2 cs'
          match cs'' with
          | [] => some (mi, 0, 0, [])
          | c2 :: cs3 =>
            if c2 = ':' then do
              let (sec, cs4) ← parseField 2 2 cs3
              match cs4 with
              | [] => some (mi, sec, 0, [])
              | c3 :: cs5 =>
                if c3 = '.' then do
                  let (ds, rem) := takeDigits cs5
                  if ds.length = 3 then
                    some (mi, sec, digitsVal ds * 1000, rem)
                  else if ds.length = 6 then
                    some (mi, sec, digitsVal ds, rem)
                  else none
                else none
            else none
        else none)
    if cs = [] ∧ ok ∧ 0 ≤ h ∧ h ≤ 23 ∧ 0 ≤ mi ∧ mi ≤ 59 ∧ 0 ≤ sec ∧ sec ≤ 59 then
      some ⟨y, mo, d, h, mi, sec, us⟩
    else none

/-! ## Per-class widget construction -/

/-- The `properties` dict right after `_init_properties` has run in
`__init__` (`SimpleTextWidget` and `ProgressBarWidget` do not override
`_init_properties`; they call `set_property` after `super().__init__`,
which is modelled in their constructors below). The countdown default
`target_date` is January 1 of the year after `now`. -/
def defaultProps (t : WType) (now : DateTime) : PropMap :=
  match t with
  | .clock =>
      [("time_format", vStr "24"), ("show_seconds", vBool false),
       ("font_size", vInt 4), ("text_color", vTup [255, 255, 255]),
       ("background_color", vNone)]
  | .weather =>
      [("temperature_unit", vStr "C"), ("show_icon", vBool true),
       ("font_size", vInt 3), ("text_color", vTup [255, 255, 255]),
       ("background_color", vNone), ("location", vNone),
       ("api_provider", vStr "open-meteo")]
  | .date =>
      [("format", vStr "%m/%d/%y"), ("color", vTup [255, 255, 255]),
       ("show_day_of_week", vBool true)]
  | .countdown =>
      [("target_date", vStr (padZeros 4 (now.year + 1) ++ "-01-01 00:00:00")),
       ("label", vStr "Countdown"), ("color", vTup [255, 255, 255])]
  | .stopwatch =>
      [("state", vStr "stopped"), ("start_time", vNone),
       ("elapsed_seconds", vFloat 0), ("label", vStr "Stopwatch"),
       ("color", vTup [255, 255, 255])]
  | .simpleText => []
  | .progressBar => []
  | .systemStats =>
      [("metrics", vStrList ["CPU", "Memory", "Disk"]),
       ("color", vTup [144, 238, 144]), ("update_interval", vInt 5)]

/-- The `update_interval` a freshly constructed widget of each class has
(base default 60; `WeatherWidget._init_properties` sets 1800;
`CountdownWidget.__init__` sets 1; `SystemStatsWidget.__init__` takes it
as a keyword argument and is handled in its constructor below). -/
def initInterval : WType → Int
  | .weather => 1800
  | .countdown => 1
  | _ => 60

/-- `get_default_size(screen_size)` of each widget class, evaluated on a
`properties` dict. `none` models an uncaught `TypeError` (a non-numeric
`font_size` reaching `min`/`+`, or an unsized `text`/`metrics` reaching
`len`). Scale factors written `screen_size / 64.0` in Python are exact
rationals here. -/
def getDefaultSize (t : WType) (screen : Int) (props : PropMap) :
    Option (Rat × Rat) :=
  match t with
  | .clock =>
    let tf := pyGetD props "time_format" (vStr "24")
    let ss := pyGetD props "show_seconds" (vBool false)
    let textLength : Int :=
      if tf == vStr "12" then (if pyTruthy ss then 11 else 8)
      else (if pyTruthy ss then 8 else 5)
    (asNum (pyGetD props "font_size" (vInt 4))).map fun q =>
      (min ((textLength : Rat) * q) (screen : Rat),
       min (q + 2) (screen : Rat))
  | .weather =>
    (asNum (pyGetD props "font_size" (vInt 3))).map fun q =>
      (min (6 * q) (screen : Rat), min (q + 2) (screen : Rat))
  | .date =>
      some ((pyTrunc (48 * (screen : Rat) / 64) : Rat),
            (pyTrunc (12 * (screen : Rat) / 64) : Rat))
  | .countdown =>
      some ((pyTrunc (50 * (screen : Rat) / 64) : Rat),
            (pyTrunc (20 * (screen : Rat) / 64) : Rat))
  | .stopwatch =>
      some ((pyTrunc (60 * (screen : Rat) / 64) : Rat),
            (pyTrunc (20 * (screen : Rat) / 64) : Rat))
  | .progressBar =>
      some ((pyTrunc (80 * (screen : Rat) / 64) : Rat),
            (pyTrunc (8 * (screen : Rat) / 64) : Rat))
  | .simpleText =>
    let text := pyGetD props "text" (vStr "Hello")
    let charWidth := pyTrunc (6 * (screen : Rat) / 64)
    let charHeight := pyTrunc (12 * (screen : Rat) / 64)
    (pyLen text).map fun n =>
      ((max ((n : Int) * charWidth) 30 : Int), (max charHeight 10 : Int))
  | .systemStats =>
    let metrics := pyGetD props "metrics" (vStrList ["CPU", "Memory", "Disk"])
    (pyLen metrics).map fun n =>
      ((max (pyTrunc (60 * (screen : Rat) / 64)) ((n : Int) * 20) : Int),
       (max (pyTrunc (30 * (screen : Rat) / 64)) 15 : Int))

/-- `BaseWidget.__init__` with the subclass's initial properties and
update interval: defaults the size from `get_default_size` when a
dimension is missing. (At construction time the properties are always the
class defaults, for which `getDefaultSize` never fails; the `(0, 0)`
fallback is unreachable.) -/
def baseInit (t : WType) (x y : Rat) (width height : Option Rat)
    (screen : Int) (props : PropMap) (interval : Int) : Widget :=
  let dflt := (getDefaultSize t screen props).getD (0, 0)
  { wtype := t, x := x, y := y,
    width := width.getD dflt.1, height := height.getD dflt.2,
    visible := true, zIndex := 0, updateInterval := interval,
    screenSize := screen, properties := props }

/-! ## Serialized widget dictionaries and the factory
(`BaseWidget.to_dict`, `WidgetFactory`, `layout_manager.py`) -/

/-- A serialized widget entry: the standard keys of `BaseWidget.to_dict`
(each `Option` because `dict.get` tolerates absence) plus any additional
top-level keys (`extra`), which `WidgetFactory._create_plugin_widget`
forwards to the widget constructor as keyword arguments. -/
structure WidgetDict where
  wtype : Option String
  x : Option Rat
  y : Option Rat
  width : Option Rat
  height : Option Rat
  visible : Option Bool
  zIndex : Option Int
  updateInterval : Option Int
  properties : Option PropMap
  extra : List (String × Value)
deriving Repr, DecidableEq

/-- The `type` string `to_dict` serializes: `self.__class__.__name__` in
`BaseWidget.to_dict`, overridden to the plugin metadata name by
`SimpleTextWidget`, `ProgressBarWidget` and `SystemStatsWidget`. -/
def typeName : WType → String
  | .clock => "ClockWidget"
  | .countdown => "CountdownWidget"
  | .date => "DateWidget"
  | .stopwatch => "StopwatchWidget"
  | .weather => "WeatherWidget"
  | .simpleText => "SimpleText"
  | .progressBar => "ProgressBar"
  | .systemStats => "SystemStats"

/-- `to_dict` (`BaseWidget.to_dict`, with the three `type` overrides folded
into `typeName`; no widget adds further keys). -/
def toDict (w : Widget) : WidgetDict :=
  { wtype := some (typeName w.wtype), x := some w.x, y := some w.y,
    width := some w.width, height := some w.height,
    visible := some w.visible, zIndex := some w.zIndex,
    updateInterval := some w.updateInterval,
    properties := some w.properties, extra := [] }

/-- Value of an extra top-level key, with the Python-side default. -/
def extraGet (d : WidgetDict) (k : String) (dflt : Value) : Value :=
  (dictGet d.extra k).getD dflt

/-- The keyword arguments each widget class `__init__` accepts beyond
`x`, `y`, `width`, `height` (an extra `screen_size` key silently overrides
the factory's `screen_size` keyword; any other unknown keyword makes the
constructor call raise `TypeError`). -/
def acceptedExtra (t : WType) (k : String) : Bool :=
  k == "screen_size" ||
  match t with
  | .simpleText => k == "text" || k == "color" || k == "font_size"
      || k == "background_color"
  | .progressBar => k == "progress" || k == "foreground_color"
      || k == "background_color" || k == "border_color"
      || k == "show_percentage"
  | .systemStats => k == "metrics" || k == "update_interval" || k == "color"
  | _ => false

/-- The effective `screen_size` keyword: overridden by an extra
`screen_size` key when present with an integer value. -/
def effScreen (d : WidgetDict) (screen : Int) : Int :=
  match dictGet d.extra "screen_size" with
  | some (vInt n) => n
  | _ => screen

/-- Python `max(0.0, min(1.0, p))` as used by `ProgressBarWidget` to clamp
`progress`: `none` models the `TypeError` for a non-numeric value. -/
def clampProgress (v : Value) : Option Value :=
  (asNum v).map fun q =>
    if q ≤ 0 then vFloat 0 else if 1 ≤ q then vFloat 1 else v

/-- `SimpleTextWidget._calculate_dimensions`: width/height recomputed from
the `text` and `font_size` properties (overwriting whatever the
constructor was given); `none` when both the measurement and its fallback
raise (non-numeric font size or unsized text). -/
def calculateDimensions (text fontSize : Value) : Option (Rat × Rat) :=
  match asNum fontSize, pyLen text with
  | some q, some n =>
      some ((pyTrunc ((n : Rat) * (q * (3 / 5))) : Rat),
            (pyTrunc (q * (6 / 5)) : Rat))
  | _, _ => none

/-- The `widget_class(**kwargs)` call of
`WidgetFactory._create_plugin_widget`: per-class constructor semantics,
`none` for a raised `TypeError`/`ValueError` (which the factory catches). -/
def constructFactory (t : WType) (d : WidgetDict) (screen : Int)
    (now : DateTime) : Option Widget :=
  if ¬ d.extra.all (fun kv => acceptedExtra t kv.1) then none
  else
    let scr := effScreen d screen
    let x := d.x.getD 0
    let y := d.y.getD 0
    match t with
    | .clock | .countdown | .date | .stopwatch | .weather =>
        some (baseInit t x y d.width d.height scr (defaultProps t now)
          (initInterval t))
    | .simpleText =>
      let text := extraGet d "text" (vStr "Hello")
      let color := extraGet d "color" (vTup [255, 255, 255])
      let fontSize := extraGet d "font_size" (vInt 12)
      let bg := extraGet d "background_color" (vTup [0, 0, 0, 0])
      let w0 := baseInit .simpleText x y d.width d.height scr [] 60
      let props := pySetAll w0.properties
        [("text", text), ("color", color), ("font_size", fontSize),
         ("background_color", bg)]
      (calculateDimensions text fontSize).map fun wh =>
        { w0 with properties := props, width := wh.1, height := wh.2 }
    | .progressBar =>
      let progress := extraGet d "progress" (vFloat (mkRat 1 2))
      let fg := extraGet d "foreground_color" (vTup [0, 255, 0])
      let bg := extraGet d "background_color" (vTup [64, 64, 64])
      let border := extraGet d "border_color" (vTup [128, 128, 128])
      let showPct := extraGet d "show_percentage" (vBool false)
      (clampProgress progress).map fun pv =>
        let w0 := baseInit .progressBar x y d.width d.height scr [] 60
        let props := pySetAll w0.properties
          [("progress", pv), ("foreground_color", fg),
           ("background_color", bg), ("border_color", border),
           ("show_percentage", showPct)]
        { w0 with properties := props }
    | .systemStats =>
      let metricsArg := extraGet d "metrics" vNone
      let metrics := if metricsArg == vNone
        then vStrList ["CPU", "Memory", "Disk"] else metricsArg
      let interval : Int := match dictGet d.extra "update_interval" with
        | some (vInt n) => n
        | _ => 5
      let color := extraGet d "color" (vTup [144, 238, 144])
      let w0 := baseInit .systemStats x y d.width d.height scr
        (defaultProps .systemStats now) 60
      let props := pySetAll w0.properties
        [("metrics", metrics), ("color", color),
         ("update_interval", vInt interval)]
      some { w0 with updateInterval := interval, properties := props }

/-- `WidgetFactory._create_plugin_widget`: construct, then set the common
attributes and re-apply the serialized `properties` via `set_property`.
Construction errors are caught and yield `None`. -/
def createPluginWidget (t : WType) (d : WidgetDict) (screen : Int)
    (now : DateTime) : Option Widget :=
  (constructFactory t d screen now).map fun w0 =>
    let w1 := { w0 with visible := d.visible.getD true,
                        zIndex := d.zIndex.getD 0,
                        updateInterval := d.updateInterval.getD 60 }
    { w1 with properties := pySetAll w1.properties (d.properties.getD []) }

/-- `WidgetFactory.create_widget`: the built-in tier
(`_initialize_builtin_widgets` leaves `_builtin_widgets` empty, so it never
matches), then the plugin registry by exact name; the second
"backward compatibility" loop scans the same `widget_classes` dict and can
never succeed where the direct lookup failed. `none` for an unknown type
(including a missing `type` key). -/
def createWidget (wt : Option String) (d : WidgetDict) (screen : Int)
    (now : DateTime) : Option Widget :=
  match wt with
  | none => none
  | some name =>
    match getWidgetClass loadedPluginManager name with
    | some t => createPluginWidget t d screen now
    | none => none

/-! ## Layout serialization (`LayoutManager.to_dict` / `from_dict`) -/

/-- A serialized layout dictionary. -/
structure LayoutDict where
  screenSize : Option Int
  backgroundColor : Option (List Int)
  widgets : List WidgetDict
deriving Repr, DecidableEq

/-- `LayoutManager.to_dict`. -/
def layoutToDict (l : Layout) : LayoutDict :=
  { screenSize := some l.screenSize,
    backgroundColor :=
      some [l.backgroundColor.1, l.backgroundColor.2.1, l.backgroundColor.2.2],
    widgets := l.widgets.map toDict }

/-- `LayoutManager.from_dict`: defaults, background color (a list of any
length other than 3 falls back to black), then one factory call per widget
entry, `add_widget` on success and a logged skip on `None`. -/
def layoutFromDict (d : LayoutDict) (now : DateTime) : Layout :=
  let screen := d.screenSize.getD 64
  let bg : Int × Int × Int :=
    match d.backgroundColor.getD [0, 0, 0] with
    | [r, g, b] => (r, g, b)
    | _ => (0, 0, 0)
  d.widgets.foldl
    (fun acc wd =>
      match createWidget wd.wtype wd screen now with
      | some w => addWidget acc w
      | none => acc)
    { screenSize := screen, backgroundColor := bg, widgets := [] }

/-! ## Class-level `from_dict` (C3) -/

/-- The shared body of `ClockWidget.from_dict`, `DateWidget.from_dict`,
`CountdownWidget.from_dict` and `StopwatchWidget.from_dict` (they are
copies of one another, differing only in the `update_interval` default):
construct from `x`/`y`/`width`/`height`/`screen_size`, restore `visible`,
`z_index`, `update_interval`, and assign the serialized `properties` dict
wholesale (defaulting to the freshly-initialized one). -/
def stdFromDict (t : WType) (intervalDefault : Int) (d : WidgetDict)
    (now : DateTime) : Widget :=
  let screen : Int := match dictGet d.extra "screen_size" with
    | some (vInt n) => n
    | _ => 64
  let w0 := baseInit t (d.x.getD 0) (d.y.getD 0) d.width d.height screen
    (defaultProps t now) (initInterval t)
  { w0 with visible := d.visible.getD true,
            zIndex := d.zIndex.getD 0,
            updateInterval := d.updateInterval.getD intervalDefault,
            properties := d.properties.getD w0.properties }

/-- `ClockWidget.from_dict`. -/
def clockFromDict (d : WidgetDict) (now : DateTime) : Widget :=
  stdFromDict .clock 60 d now

/-- `DateWidget.from_dict`. -/
def dateFromDict (d : WidgetDict) (now : DateTime) : Widget :=
  stdFromDict .date 60 d now

/-- `CountdownWidget.from_dict` (`update_interval` defaults to 1). -/
def countdownFromDict (d : WidgetDict) (now : DateTime) : Widget :=
  stdFromDict .countdown 1 d now

/-- `StopwatchWidget.from_dict`. -/
def stopwatchFromDict (d : WidgetDict) (now : DateTime) : Widget :=
  stdFromDict .stopwatch 60 d now

/-- `WeatherWidget.from_dict`, which delegates to `BaseWidget.from_dict`:
construct with `x`/`y`/`width`/`height` (no `screen_size` keyword, so 64),
restore `visible`, `z_index`, `update_interval`, and assign
`data.get('properties', {})` (empty-dict default). -/
def weatherFromDict (d : WidgetDict) : Widget :=
  let w0 := baseInit .weather (d.x.getD 0) (d.y.getD 0) d.width d.height 64
    (defaultProps .weather ⟨0, 0, 0, 0, 0, 0, 0⟩) (initInterval .weather)
  { w0 with visible := d.visible.getD true,
            zIndex := d.zIndex.getD 0,
            updateInterval := d.updateInterval.getD 60,
            properties := d.properties.getD [] }

/-- `ProgressBarWidget.from_dict`'s `to_color_tuple` helper: a list/tuple
is truncated to its first three entries and padded with the default's
components; any other value yields the default. (A list of non-numeric
strings would make `int(c)` raise; that corner is left out because the
claims never reach it.) -/
def toColorTuple (v : Value) (dflt : List Int) : Option (List Int) :=
  match v with
  | vTup l => some (let c := l.take 3; c ++ (dflt.drop c.length))
  | vStrList _ => none
  | _ => some dflt

/-- `ProgressBarWidget.from_dict`: reads `progress` and the colors from
TOP-LEVEL keys (where `to_dict` never puts them), clamps `progress` in the
constructor, and never restores `visible`, `z_index`, `update_interval`
or the serialized `properties` dict. -/
def progressBarFromDict (d : WidgetDict) : Option Widget := do
  let fg ← toColorTuple (extraGet d "foreground_color" vNone) [0, 255, 0]
  let bg ← toColorTuple (extraGet d "background_color" vNone) [64, 64, 64]
  let border ← toColorTuple (extraGet d "border_color" vNone) [128, 128, 128]
  let progress := extraGet d "progress" (vFloat (mkRat 1 2))
  let pv ← clampProgress progress
  let screen : Int := match dictGet d.extra "screen_size" with
    | some (vInt n) => n
    | _ => 64
  let w0 := baseInit .progressBar (d.x.getD 0) (d.y.getD 0)
    (some (d.width.getD 50)) (some (d.height.getD 10)) screen [] 60
  let props := pySetAll w0.properties
    [("progress", pv), ("foreground_color", vTup fg),
     ("background_color", vTup bg), ("border_color", vTup border),
     ("show_percentage", extraGet d "show_percentage" (vBool false))]
  some { w0 with properties := props }

/-! ## Render records (`CountdownWidget` / `StopwatchWidget`) -/

/-- `str(float)` on a non-negative value, for the model's exact rationals:
fixed-point decimal when the value has a finite decimal expansion of at
most 17 digits (every value the widgets produce does), with Python's `.0`
suffix on integral floats. Other rationals (never produced by the
modelled code paths) fall back to the raw `Rat` printing. -/
def floatReprNonneg (q : Rat) : String :=
  match (List.range 18).find? (fun k => (q * (10 : Rat) ^ k).den = 1) with
  | some 0 => toString q.num ++ ".0"
  | some k =>
    let n := (q * (10 : Rat) ^ k).num
    let tenK : Int := (10 : Int) ^ k
    toString (Int.ediv n tenK) ++ "." ++ padZeros k (Int.emod n tenK)
  | none => toString q

/-- `str(float)` for the model's exact rationals. -/
def floatRepr (q : Rat) : String :=
  if q < 0 then "-" ++ floatReprNonneg (-q) else floatReprNonneg q

/-- The string a value contributes to an f-string (`str(value)`). -/
def pyStr : Value → String
  | vStr s => s
  | vInt n => toString n
  | vFloat q => floatRepr q
  | vBool b => if b then "True" else "False"
  | vNone => "None"
  | vTup [n] => "(" ++ toString n ++ ",)"
  | vTup l => "(" ++ String.intercalate ", " (l.map toString) ++ ")"
  | vStrList l =>
      "[" ++ String.intercalate ", " (l.map (fun s => "'" ++ s ++ "'")) ++ "]"

/-- `StopwatchWidget.format_seconds` on a number: `int(seconds // 3600)`,
`int((seconds % 3600) // 60)`, `int(seconds % 60)` — Python float `//`
and `%` floor toward the divisor's sign, and `int` truncates the already
non-negative remainders. -/
def formatSecondsQ (q : Rat) : String :=
  pad2 ⌊q / 3600⌋ ++ ":" ++ pad2 ⌊(q - 3600 * ⌊q / 3600⌋) / 60⌋ ++ ":"
    ++ pad2 ⌊q - 60 * ⌊q / 60⌋⌋

/-- `format_seconds` on an arbitrary property value: a non-numeric value
makes `seconds // 3600` raise `TypeError` (uncaught). -/
def formatSeconds (v : Value) : Option String :=
  (asNum v).map formatSecondsQ

/-- The render-record shape shared by `CountdownWidget.get_render_data`
and `StopwatchWidget.get_render_data`: `{"type", "text", "color",
"position", "size"}`. -/
structure RenderRecord where
  rtype : String
  text : String
  color : Value
  position : Rat × Rat
  size : Rat × Rat
deriving Repr, DecidableEq

/-- `CountdownWidget.get_render_data`: parse `target_date` with
`strptime(..., '%Y-%m-%d %H:%M:%S')`; on `ValueError` return the red
"Invalid date format" record; otherwise an all-zero display once the
target is reached, else the `DD:HH:MM:SS` breakdown of the remaining
`timedelta`. `none` models the uncaught `TypeError` when `target_date`
holds a non-string. -/
def countdownRender (w : Widget) (now : DateTime) : Option RenderRecord :=
  let targetV := getProperty w "target_date" (vStr "2024-01-01 00:00:00")
  let label := getProperty w "label" (vStr "Countdown")
  let color := getProperty w "color" (vTup [255, 255, 255])
  match targetV with
  | vStr s =>
    match parseYmdHms s with
    | none =>
      some { rtype := "text", text := "Invalid date format",
             color := vTup [255, 0, 0], position := (w.x, w.y),
             size := (w.width, w.height) }
    | some target =>
      let countdownText :=
        if now.toUs ≥ target.toUs then "00:00:00:00"
        else
          let us := target.toUs - now.toUs
          let days := Int.ediv us 86400000000
          let secs := Int.ediv (Int.emod us 86400000000) 1000000
          let hours := Int.ediv secs 3600
          let rem := Int.emod secs 3600
          pad2 days ++ ":" ++ pad2 hours ++ ":" ++ pad2 (Int.ediv rem 60)
            ++ ":" ++ pad2 (Int.emod rem 60)
      some { rtype := "text", text := pyStr label ++ "\n" ++ countdownText,
             color := color, position := (w.x, w.y),
             size := (w.width, w.height) }
  | _ => none

/-- `StopwatchWidget.get_render_data`: state machine over the `state`
property, returning the record together with the mutated widget (the
method writes `start_time`/`elapsed_seconds`/`state` properties and
`update_interval`). `none` models the uncaught `TypeError` when a
non-numeric value reaches `format_seconds`. -/
def stopwatchRender (w : Widget) (now : DateTime) :
    Option (RenderRecord × Widget) :=
  let state := getProperty w "state" (vStr "stopped")
  let label := getProperty w "label" (vStr "Stopwatch")
  let color := getProperty w "color" (vTup [255, 255, 255])
  let elapsedV := getProperty w "elapsed_seconds" (vFloat 0)
  let mkRec (ts : String) : RenderRecord :=
    { rtype := "text", text := pyStr label ++ "\n" ++ ts, color := color,
      position := (w.x, w.y), size := (w.width, w.height) }
  if state == vStr "running" then
    let startV := getProperty w "start_time" vNone
    let stamped := ¬ pyTruthy startV
    let startV' := if stamped then vStr now.isoformat else startV
    let w1 := if stamped then setProperty w "start_time" (vStr now.isoformat)
      else w
    let total : Value :=
      match startV' with
      | vStr s =>
        match fromIsoformat s with
        | some t =>
          match asNum elapsedV with
          | some e => vFloat (e + diffSeconds now t)
          | none => elapsedV      -- TypeError in the addition, caught
        | none => elapsedV        -- ValueError from fromisoformat, caught
      | _ => elapsedV             -- TypeError from fromisoformat, caught
    (formatSeconds total).map fun ts =>
      (mkRec ts, { w1 with updateInterval := 1 })
  else if state == vStr "stopped" then
    (formatSeconds elapsedV).map fun ts =>
      (mkRec ts, { w with updateInterval := 60 })
  else if state == vStr "reset" then
    let props := pySetAll w.properties
      [("elapsed_seconds", vFloat 0), ("start_time", vNone),
       ("state", vStr "stopped")]
    (formatSeconds (vFloat 0)).map fun ts =>
      (mkRec ts, { w with updateInterval := 60, properties := props })
  else
    (formatSeconds elapsedV).map fun ts =>
      (mkRec ts, { w with updateInterval := 60 })

/-! ## Concrete example widgets and layouts used by the claims -/

/-- A widget at `(10, 10)` with size `(20, 5)` (the C5 example). -/
def exWidget1010 : Widget :=
  { wtype := .clock, x := 10, y := 10, width := 20, height := 5,
    visible := true, zIndex := 0, updateInterval := 60, screenSize := 64,
    properties := [] }

/-- Widget A of the C4 example: `z_index = 0`, contains `(12, 12)`. -/
def exWidgetA : Widget :=
  { wtype := .clock, x := 10, y := 10, width := 20, height := 20,
    visible := true, zIndex := 0, updateInterval := 60, screenSize := 64,
    properties := [] }

/-- Widget B of the C4 example: `z_index = 1`, overlaps A, contains `(12, 12)`. -/
def exWidgetB : Widget :=
  { wtype := .date, x := 5, y := 5, width := 30, height := 30,
    visible := true, zIndex := 1, updateInterval := 60, screenSize := 64,
    properties := [] }

/-- Layout holding A (added first) and B, as `add_widget` leaves it. -/
def exLayoutAB : Layout :=
  { screenSize := 64, backgroundColor := (0, 0, 0),
    widgets := [exWidgetA, exWidgetB] }

/-! ## Claim theorems -/

/-- A countdown widget whose `target_date` is the unparsable string
`"not-a-date"`. -/
def cexCountdown : Widget :=
  { wtype := .countdown, x := 2, y := 3, width := 50, height := 20,
    visible := true, zIndex := 0, updateInterval := 1, screenSize := 64,
    properties := [("target_date", vStr "not-a-date"),
                   ("label", vStr "Countdown"),
                   ("color", vTup [255, 255, 255])] }

/-- A stopwatch widget in state `reset` with stale
`elapsed_seconds`/`start_time`. -/
def cexStopwatchReset : Widget :=
  { wtype := .stopwatch, x := 1, y := 2, width := 60, height := 20,
    visible := true, zIndex := 0, updateInterval := 60, screenSize := 64,
    properties := [("state", vStr "reset"),
                   ("start_time", vStr "2025-01-01T00:00:00"),
                   ("elapsed_seconds", vFloat 42),
                   ("label", vStr "Stopwatch"),
                   ("color", vTup [255, 255, 255])] }

/-- A stopwatch with an unknown state string and a non-numeric
`elapsed_seconds` (the C9 counterexample). -/
def cexStopwatchBad : Widget :=
  { wtype := .stopwatch, x := 0, y := 0, width := 60, height := 20,
    visible := true, zIndex := 0, updateInterval := 60, screenSize := 64,
    properties := [("state", vStr "paused"),
                   ("elapsed_seconds", vStr "oops")] }

/-- A stopwatch with the unknown state `"paused"` and numeric elapsed
time. -/
def cexStopwatchPaused : Widget :=
  { cexStopwatchBad with
    properties := [("state", vStr "paused"), ("elapsed_seconds", vFloat 7)] }

/-- A running stopwatch whose `start_time` is not ISO-parsable. -/
def cexStopwatchBadIso : Widget :=
  { cexStopwatchBad with
    properties := [("state", vStr "running"),
                   ("start_time", vStr "garbage"),
                   ("elapsed_seconds", vFloat 7)] }

/-- Field-wise round-trip equality on the attributes named by the
round-trip law. -/
def roundtripFieldsEq (w' w : Widget) : Prop :=
  w'.x = w.x ∧ w'.y = w.y ∧ w'.width = w.width ∧ w'.height = w.height
  ∧ w'.visible = w.visible ∧ w'.zIndex = w.zIndex
  ∧ w'.updateInterval = w.updateInterval ∧ w'.properties = w.properties

/-- A `ProgressBarWidget` with non-default layering and properties (the
C3 counterexample input). -/
def cexProgressBar : Widget :=
  { wtype := .progressBar, x := 5, y := 50, width := 50, height := 8,
    visible := false, zIndex := 5, updateInterval := 30, screenSize := 64,
    properties := [("progress", vFloat (mkRat 13 20)),
                   ("foreground_color", vTup [100, 200, 255]),
                   ("background_color", vTup [64, 64, 64]),
                   ("border_color", vTup [128, 128, 128]),
                   ("show_percentage", vBool true)] }

/-- A widget entry whose `type` resolves (`"Clock"`) but which carries an
unexpected top-level key, making `ClockWidget(**kwargs)` raise
`TypeError` (caught by the factory, which skips the entry). -/
def cexCluttered : WidgetDict :=
  { wtype := some "Clock", x := some 0, y := some 0, width := some 5,
    height := some 5, visible := none, zIndex := none,
    updateInterval := none, properties := none,
    extra := [("bogus", vInt 1)] }

/-- A layout dictionary containing only that entry. -/
def cexLayoutDict : LayoutDict :=
  { screenSize := some 64, backgroundColor := none,
    widgets := [cexCluttered] }

/-- Witness for the amended C2 on a mixed layout dictionary: one entry
that resolves and constructs, one ruined by a bogus keyword, one with an
unregistered type. -/
def cexEntryGood : WidgetDict :=
  { cexCluttered with extra := [] }

/-- An entry with an unregistered `type`. -/
def cexEntryUnknown : WidgetDict :=
  { cexCluttered with wtype := some "NopeWidget", extra := [] }

/-- A layout dictionary mixing the three entries. -/
def cexLayoutDictMixed : LayoutDict :=
  { screenSize := some 64, backgroundColor := none,
    widgets := [cexEntryGood, cexCluttered, cexEntryUnknown] }

/-- The clock widget of the C1 failing input, with its default
properties. -/
def cexClockWidget : Widget :=
  { wtype := .clock, x := 5, y := 5, width := 20, height := 6,
    visible := true, zIndex := 0, updateInterval := 60, screenSize := 64,
    properties := [("time_format", vStr "24"), ("show_seconds", vBool false),
                   ("font_size", vInt 4), ("text_color", vTup [255, 255, 255]),
                   ("background_color", vNone)] }

/-- The C1 failing input: a layout holding one `ClockWidget`. -/
def cexClockLayout : Layout :=
  { screenSize := 64, backgroundColor := (0, 0, 0),
    widgets := [cexClockWidget] }

/-! ## Lemmas and claim theorems -/

@[simp] theorem pyGet_pySet_same (m : PropMap) (k : String) (v : Value) :
    pyGet (pySet m k v) k = some v := by
  induction m with
  | nil => simp [pySet, pyGet]
  | cons kv rest ih =>
    by_cases h : kv.1 = k
    · simp [pySet, pyGet, List.find?_cons_of_pos, h]
    · simp only [pySet, beq_iff_eq, h, if_false]
      rw [pyGet, List.find?_cons_of_neg _ (by simpa using h)]
      exact ih

@[simp] theorem pyGet_pySet_other (m : PropMap) (k k' : String) (v : Value)
    (h : k' ≠ k) : pyGet (pySet m k v) k' = pyGet m k' := by
  induction m with
  | nil => simp [pySet, pyGet, Ne.symm h]
  | cons kv rest ih =>
    by_cases hk : kv.1 = k
    · subst hk
      simp only [pySet, beq_self_eq_true, if_true]
      rw [pyGet, pyGet, List.find?_cons_of_neg _ (by simpa using Ne.symm h),
        List.find?_cons_of_neg _ (by simpa using Ne.symm h)]
    · simp only [pySet, beq_iff_eq, hk, if_false]
      by_cases hk' : kv.1 = k'
      · rw [pyGet, pyGet, List.find?_cons_of_pos _ (by simpa using hk'),
          List.find?_cons_of_pos _ (by simpa using hk')]
      · rw [pyGet, pyGet, List.find?_cons_of_neg _ (by simpa using hk'),
          List.find?_cons_of_neg _ (by simpa using hk')]
        exact ih

/-! ## Widget data model (`widgets/base_widget.py`) -/

theorem mem_insertZ (w a : Widget) (l : List Widget) :
    a ∈ insertZ w l ↔ a = w ∨ a ∈ l := by
  induction l with
  | nil => simp [insertZ]
  | cons b rest ih =>
    by_cases h : b.zIndex < w.zIndex
    · simp only [insertZ, h, if_true, List.mem_cons, ih]
      try tauto
    · simp only [insertZ, h, if_false, List.mem_cons]
      try tauto

theorem zsorted_insertZ (w : Widget) (l : List Widget) (hl : ZSorted l) :
    ZSorted (insertZ w l) := by
  induction l with
  | nil => simp [insertZ, ZSorted]
  | cons a rest ih =>
    have h := List.sorted_cons.mp hl
    by_cases ha : a.zIndex < w.zIndex
    · simp only [insertZ, ha, if_true]
      refine List.sorted_cons.mpr ⟨?_, ih h.2⟩
      intro b hb
      rcases (mem_insertZ w b rest).mp hb with rfl | hb
      · exact le_of_lt ha
      · exact h.1 b hb
    · simp only [insertZ, ha, if_false]
      refine List.sorted_cons.mpr ⟨?_, hl⟩
      intro b hb
      rcases List.mem_cons.mp hb with rfl | hb
      · exact le_of_not_lt ha
      · exact le_trans (le_of_not_lt ha) (h.1 b hb)

theorem zsorted_sortZ (l : List Widget) : ZSorted (sortZ l) := by
  induction l with
  | nil => simp [sortZ, ZSorted]
  | cons a rest ih => exact zsorted_insertZ a _ ih

theorem length_insertZ (w : Widget) (l : List Widget) :
    (insertZ w l).length = l.length + 1 := by
  induction l with
  | nil => rfl
  | cons a rest ih =>
    by_cases h : a.zIndex < w.zIndex
    · simp [insertZ, h, ih]
    · simp [insertZ, h]

theorem length_sortZ (l : List Widget) : (sortZ l).length = l.length := by
  induction l with
  | nil => rfl
  | cons a rest ih => simp [sortZ, length_insertZ, ih]

/-- The step the stable-sort-then-reverse-then-find computation takes when
one more widget is inserted into an already z-sorted list: the inserted
widget wins over matches of strictly smaller `z_index` (it sits in front of
all its `z_index`-ties in the reversed order), and loses to matches of
greater-or-equal `z_index`. -/
theorem find?_reverse_insertZ (hit : Widget → Bool) (w : Widget)
    (s : List Widget) (hs : ZSorted s) :
    ((insertZ w s).reverse).find? hit =
      match (s.reverse.find? hit) with
      | none => if hit w then some w else none
      | some c => if hit w && decide (c.zIndex < w.zIndex) then some w else some c := by
  induction s with
  | nil =>
    simp only [insertZ, List.reverse_nil, List.find?_nil, List.reverse_cons,
      List.nil_append, List.find?_cons]
    cases h : hit w <;> simp [h]
  | cons x t ih =>
    have hs' := List.sorted_cons.mp hs
    by_cases hx : x.zIndex < w.zIndex
    · simp only [insertZ, hx, if_true, List.reverse_cons, List.find?_append,
        ih hs'.2]
      cases hf : t.reverse.find? hit with
      | some c => cases hw : hit w <;> cases hz : decide (c.zIndex < w.zIndex) <;>
          simp [Option.or, hw, hz]
      | none =>
        cases hhx : hit x with
        | true =>
          cases hw : hit w <;>
            simp [Option.or, List.find?_cons, hhx, hw, hx]
        | false =>
          cases hw : hit w <;> simp [Option.or, List.find?_cons, hhx, hw]
    · simp only [insertZ, hx, if_false, List.reverse_cons, List.reverse_cons,
        List.find?_append]
      cases hf : t.reverse.find? hit with
      | some c =>
        have hc : c ∈ t := List.mem_reverse.mp (List.mem_of_find?_eq_some hf)
        have hcz : ¬ c.zIndex < w.zIndex :=
          not_lt.mpr (le_trans (le_of_not_lt hx) (hs'.1 c hc))
        simp [Option.or, hcz]
      | none =>
        cases hhx : hit x with
        | true => simp [Option.or, List.find?_cons, hhx, hx]
        | false =>
          cases hw : hit w <;> simp [Option.or, List.find?_cons, hhx, hw]

/-- `get_widget_at` implements exactly the spec's topmost-hit policy. -/
theorem getWidgetAt_eq_topHit (l : Layout) (px py : Rat) :
    getWidgetAt l px py = topHit px py l.widgets := by
  show (sortZ l.widgets).reverse.find? _ = _
  induction l.widgets with
  | nil => rfl
  | cons w ws ih =>
    show (insertZ w (sortZ ws)).reverse.find? _ = _
    rw [find?_reverse_insertZ _ w _ (zsorted_sortZ ws), ih]
    rfl

theorem topHit_some (px py : Rat) (l : List Widget) (b : Widget)
    (h : topHit px py l = some b) :
    b ∈ l ∧ b.visible = true ∧ containsPoint b px py = true := by
  induction l with
  | nil => exact Option.noConfusion h
  | cons w ws ih =>
    cases hf : topHit px py ws with
    | none =>
      by_cases hw : (w.visible && containsPoint w px py) = true
      · have hwb : some w = some b := by simpa [topHit, hf, hw] using h
        obtain rfl := Option.some.inj hwb
        simp only [Bool.and_eq_true] at hw
        exact ⟨List.mem_cons_self _ _, hw.1, hw.2⟩
      · exfalso
        simp [topHit, hf, hw] at h
    | some c =>
      by_cases hw : ((w.visible && containsPoint w px py)
          && decide (c.zIndex < w.zIndex)) = true
      · have hwb : some w = some b := by simpa [topHit, hf, hw] using h
        obtain rfl := Option.some.inj hwb
        simp only [Bool.and_eq_true] at hw
        exact ⟨List.mem_cons_self _ _, hw.1.1, hw.1.2⟩
      · have hcb : some c = some b := by simpa [topHit, hf, hw] using h
        obtain rfl := Option.some.inj hcb
        obtain ⟨hm, hv, hc⟩ := ih hf
        exact ⟨List.mem_cons_of_mem _ hm, hv, hc⟩

theorem topHit_eq_none_iff (px py : Rat) (l : List Widget) :
    topHit px py l = none ↔
      ∀ w ∈ l, ¬(w.visible = true ∧ containsPoint w px py = true) := by
  induction l with
  | nil => simp [topHit]
  | cons w ws ih =>
    cases hf : topHit px py ws with
    | some b =>
      obtain ⟨hb, hvis, hcont⟩ := topHit_some px py ws b hf
      constructor
      · intro h
        exfalso
        simp only [topHit, hf] at h
        split at h <;> exact Option.noConfusion h
      · intro h
        exact absurd ⟨hvis, hcont⟩ (h b (List.mem_cons_of_mem _ hb))
    | none =>
      simp only [topHit, hf]
      constructor
      · intro h w' hw'
        rcases List.mem_cons.mp hw' with rfl | hw'
        · intro ⟨h1, h2⟩
          simp [h1, h2] at h
        · exact (ih.mp hf) w' hw'
      · intro h
        have := h w (List.mem_cons_self _ _)
        rcases hv : w.visible <;> rcases hc : containsPoint w px py <;>
          simp_all

/-! ## Plugin system (`widgets/plugin_system.py`) -/

@[simp] theorem dictGet_dictSet_same {α : Type} (m : List (String × α))
    (k : String) (v : α) : dictGet (dictSet m k v) k = some v := by
  induction m with
  | nil => simp [dictSet, dictGet]
  | cons kv rest ih =>
    by_cases h : kv.1 = k
    · simp [dictSet, dictGet, List.find?_cons_of_pos, h]
    · simp only [dictSet, beq_iff_eq, h, if_false]
      rw [dictGet, List.find?_cons_of_neg _ (by simpa using h)]
      exact ih

/-- C5: `contains_point(px, py)` is true iff
`x <= px <= x + width` and `y <= py <= y + height` — inclusive on all four
edges — and in particular the widget at `(10, 10)` with size `(20, 5)`
contains both `(10, 10)` and `(30, 15)`. -/
theorem claim_C5_inclusive_bounds_containment :
    (∀ (w : Widget) (px py : Rat),
      containsPoint w px py = true ↔
        (w.x ≤ px ∧ px ≤ w.x + w.width ∧ w.y ≤ py ∧ py ≤ w.y + w.height))
    ∧ containsPoint exWidget1010 10 10 = true
    ∧ containsPoint exWidget1010 30 15 = true := by
  refine ⟨fun w px py => ?_, ?_, ?_⟩
  · simp [containsPoint, and_assoc]
  · simp only [containsPoint, exWidget1010]
    norm_num
  · simp only [containsPoint, exWidget1010]
    norm_num

/-- C4: `get_widget_at(x, y)` returns exactly the topmost visible hit —
the visible widget with the highest `z_index` whose bounding box contains
the point, ties resolved toward the later-inserted widget (`topHit`) — and
`None` iff no visible widget contains the point; in particular with
overlapping visible widgets A (`z=0`) and B (`z=1`) both containing
`(12, 12)`, it returns B. -/
theorem claim_C4_topmost_hit_test :
    (∀ (l : Layout) (px py : Rat),
      getWidgetAt l px py = topHit px py l.widgets
      ∧ (getWidgetAt l px py = none ↔
          ∀ w ∈ l.widgets,
            ¬(w.visible = true ∧ containsPoint w px py = true)))
    ∧ getWidgetAt exLayoutAB 12 12 = some exWidgetB := by
  refine ⟨fun l px py => ⟨getWidgetAt_eq_topHit l px py, ?_⟩, ?_⟩
  · rw [getWidgetAt_eq_topHit l px py]
    exact topHit_eq_none_iff px py l.widgets
  · show (sortZ exLayoutAB.widgets).reverse.find? _ = _
    have hB : containsPoint exWidgetB 12 12 = true := by
      simp only [containsPoint, exWidgetB]
      norm_num
    simp only [exWidgetB] at hB
    simp [exLayoutAB, sortZ, insertZ, exWidgetA, exWidgetB, List.find?_cons,
      hB]

/-- C8: registering a plugin whose metadata name matches an existing
registration returns `False` and changes nothing when the versions are
equal, whereas a different version returns `True` and replaces both the
plugin entry and the widget-class entry (last registration wins). -/
theorem claim_C8_duplicate_plugin_registration (pm : PluginManager)
    (p existing : WidgetPlugin)
    (h : dictGet pm.plugins p.metadata.name = some existing) :
    (existing.metadata.version = p.metadata.version →
      registerPlugin pm p = (false, pm))
    ∧ (existing.metadata.version ≠ p.metadata.version →
      (registerPlugin pm p).1 = true
      ∧ dictGet (registerPlugin pm p).2.plugins p.metadata.name = some p
      ∧ dictGet (registerPlugin pm p).2.widgetClasses p.metadata.name
          = some p.widgetClass) := by
  constructor
  · intro hv
    simp [registerPlugin, h, hv]
  · intro hv
    simp [registerPlugin, h, hv, dictGet_dictSet_same]

/-- Witness for C8: re-registering the loaded `Clock` plugin with the same
version `"1.0.0"` is a rejected no-op; registering it with version
`"2.0.0"` succeeds and overwrites both map entries. -/
theorem claim_C8_duplicate_plugin_registration_witness :
    (registerPlugin loadedPluginManager
        ⟨⟨"Clock", "d", "1.0.0", "a", "c"⟩, WType.clock⟩
      = (false, loadedPluginManager))
    ∧ ((registerPlugin loadedPluginManager
          ⟨⟨"Clock", "d", "2.0.0", "a", "c"⟩, WType.date⟩).1 = true
      ∧ dictGet (registerPlugin loadedPluginManager
            ⟨⟨"Clock", "d", "2.0.0", "a", "c"⟩, WType.date⟩).2.plugins "Clock"
          = some ⟨⟨"Clock", "d", "2.0.0", "a", "c"⟩, WType.date⟩
      ∧ dictGet (registerPlugin loadedPluginManager
            ⟨⟨"Clock", "d", "2.0.0", "a", "c"⟩, WType.date⟩).2.widgetClasses
            "Clock" = some WType.date) := by
  constructor
  · exact (claim_C8_duplicate_plugin_registration loadedPluginManager
      ⟨⟨"Clock", "d", "1.0.0", "a", "c"⟩, WType.clock⟩
      ⟨⟨"Clock", "Displays the current time.", "1.0.0", "Pixoomat", "Time"⟩,
        WType.clock⟩ (by decide)).1 (by decide)
  · exact (claim_C8_duplicate_plugin_registration loadedPluginManager
      ⟨⟨"Clock", "d", "2.0.0", "a", "c"⟩, WType.date⟩
      ⟨⟨"Clock", "Displays the current time.", "1.0.0", "Pixoomat", "Time"⟩,
        WType.clock⟩ (by decide)).2 (by decide)

theorem formatSecondsQ_zero : formatSecondsQ 0 = "00:00:00" := by
  have h0 : ((0 : Rat) / 3600) = 0 := by norm_num
  have h1 : ((0 : Rat) / 60) = 0 := by norm_num
  simp only [formatSecondsQ, h0, Int.floor_zero, Int.cast_zero, mul_zero,
    sub_zero, h1]
  rfl

/-- C6: an unparsable `target_date` string makes
`CountdownWidget.get_render_data` return (not raise) the in-band error
record: type `text`, text exactly `"Invalid date format"`, color
`(255, 0, 0)`. -/
theorem claim_C6_countdown_invalid_date (w : Widget) (now : DateTime)
    (s : String)
    (hs : getProperty w "target_date" (vStr "2024-01-01 00:00:00") = vStr s)
    (hp : parseYmdHms s = none) :
    countdownRender w now =
      some { rtype := "text", text := "Invalid date format",
             color := vTup [255, 0, 0], position := (w.x, w.y),
             size := (w.width, w.height) } := by
  simp only [countdownRender, hs, hp]

/-- Witness for C6 at `target_date = "not-a-date"`. -/
theorem claim_C6_countdown_invalid_date_witness :
    countdownRender cexCountdown ⟨2025, 1, 1, 0, 0, 0, 0⟩ =
      some { rtype := "text", text := "Invalid date format",
             color := vTup [255, 0, 0],
             position := (cexCountdown.x, cexCountdown.y),
             size := (cexCountdown.width, cexCountdown.height) } :=
  claim_C6_countdown_invalid_date cexCountdown ⟨2025, 1, 1, 0, 0, 0, 0⟩
    "not-a-date" (by decide) (by decide)

/-- C7: reading a stopwatch in state `reset` renders
`label\n00:00:00` and, as a one-shot side effect, persists
`elapsed_seconds = 0.0`, `start_time = None` and `state = "stopped"`
(so the next read takes the `stopped` branch). -/
theorem claim_C7_stopwatch_reset_one_shot (w : Widget) (now : DateTime)
    (h : getProperty w "state" (vStr "stopped") = vStr "reset") :
    ∃ w', stopwatchRender w now =
        some ({ rtype := "text",
                text := pyStr (getProperty w "label" (vStr "Stopwatch"))
                  ++ "\n" ++ "00:00:00",
                color := getProperty w "color" (vTup [255, 255, 255]),
                position := (w.x, w.y), size := (w.width, w.height) }, w')
      ∧ pyGet w'.properties "elapsed_seconds" = some (vFloat 0)
      ∧ pyGet w'.properties "start_time" = some vNone
      ∧ pyGet w'.properties "state" = some (vStr "stopped")
      ∧ w'.updateInterval = 60 := by
  have e1 : (vStr "reset" == vStr "running") = false := by decide
  have e2 : (vStr "reset" == vStr "stopped") = false := by decide
  have e3 : (vStr "reset" == vStr "reset") = true := by decide
  refine ⟨{ w with updateInterval := 60, properties := pySetAll w.properties [("elapsed_seconds", vFloat 0), ("start_time", vNone), ("state", vStr "stopped")] }, ?_, ?_, ?_, ?_, rfl⟩
  · simp only [stopwatchRender, h, e1, e2, e3, Bool.false_eq_true,
      if_false, if_true, formatSeconds, asNum]
    simp [formatSecondsQ_zero]
  · simp only [pySetAll, List.foldl]
    rw [pyGet_pySet_other _ _ _ _ (by decide),
      pyGet_pySet_other _ _ _ _ (by decide), pyGet_pySet_same]
  · simp only [pySetAll, List.foldl]
    rw [pyGet_pySet_other _ _ _ _ (by decide), pyGet_pySet_same]
  · simp only [pySetAll, List.foldl]
    rw [pyGet_pySet_same]

/-- Witness for C7 on a concrete reset-state stopwatch. -/
theorem claim_C7_stopwatch_reset_one_shot_witness :
    ∃ w', stopwatchRender cexStopwatchReset ⟨2025, 1, 1, 0, 0, 0, 0⟩ =
        some ({ rtype := "text",
                text := pyStr (getProperty cexStopwatchReset "label"
                    (vStr "Stopwatch")) ++ "\n" ++ "00:00:00",
                color := getProperty cexStopwatchReset "color"
                  (vTup [255, 255, 255]),
                position := (cexStopwatchReset.x, cexStopwatchReset.y),
                size := (cexStopwatchReset.width, cexStopwatchReset.height) },
          w')
      ∧ pyGet w'.properties "elapsed_seconds" = some (vFloat 0)
      ∧ pyGet w'.properties "start_time" = some vNone
      ∧ pyGet w'.properties "state" = some (vStr "stopped")
      ∧ w'.updateInterval = 60 :=
  claim_C7_stopwatch_reset_one_shot cexStopwatchReset ⟨2025, 1, 1, 0, 0, 0, 0⟩
    (by decide)

/-- C9 counterexample: with state `"paused"` (a string other than
`stopped`/`running`/`reset`) but a non-numeric `elapsed_seconds`,
`get_render_data` raises an uncaught `TypeError` inside `format_seconds`
(`"oops" // 3600`), so the claim's "does not raise for every such widget"
is false. -/
theorem claim_C9_counterexample :
    stopwatchRender cexStopwatchBad ⟨2025, 1, 1, 0, 0, 0, 0⟩ = none := by
  decide

/-- C9 (amended): stopwatch rendering is total over malformed state
*provided `elapsed_seconds` is numeric*: an unknown state string falls
back to rendering the accumulated `elapsed_seconds` as `HH:MM:SS` with
`update_interval = 60` and no property mutation, and in state `running` a
non-empty start-time string that `fromisoformat` rejects falls back to the
same elapsed display (here with `update_interval = 1`), again leaving the
properties unchanged. -/
theorem claim_C9_amended_stopwatch_total (w : Widget) (now : DateTime) :
    (∀ st : String,
      getProperty w "state" (vStr "stopped") = vStr st →
      st ≠ "stopped" → st ≠ "running" → st ≠ "reset" →
      ∀ e : Rat,
        asNum (getProperty w "elapsed_seconds" (vFloat 0)) = some e →
        stopwatchRender w now = some
          ({ rtype := "text",
             text := pyStr (getProperty w "label" (vStr "Stopwatch"))
               ++ "\n" ++ formatSecondsQ e,
             color := getProperty w "color" (vTup [255, 255, 255]),
             position := (w.x, w.y), size := (w.width, w.height) },
           { w with updateInterval := 60 }))
    ∧ (∀ s : String,
      getProperty w "state" (vStr "stopped") = vStr "running" →
      getProperty w "start_time" vNone = vStr s → s ≠ "" →
      fromIsoformat s = none →
      ∀ e : Rat,
        asNum (getProperty w "elapsed_seconds" (vFloat 0)) = some e →
        stopwatchRender w now = some
          ({ rtype := "text",
             text := pyStr (getProperty w "label" (vStr "Stopwatch"))
               ++ "\n" ++ formatSecondsQ e,
             color := getProperty w "color" (vTup [255, 255, 255]),
             position := (w.x, w.y), size := (w.width, w.height) },
           { w with updateInterval := 1 })) := by
  constructor
  · intro st hst h1 h2 h3 e he
    have e1 : (vStr st == vStr "running") = false := by
      simp [beq_eq_false_iff_ne, h2]
    have e2 : (vStr st == vStr "stopped") = false := by
      simp [beq_eq_false_iff_ne, h1]
    have e3 : (vStr st == vStr "reset") = false := by
      simp [beq_eq_false_iff_ne, h3]
    simp only [stopwatchRender, hst, e1, e2, e3, Bool.false_eq_true,
      if_false, formatSeconds, he, Option.map_some]
    simp
  · intro s hst hstart hne hiso e he
    have e1 : (vStr "running" == vStr "running") = true := by decide
    have htr : pyTruthy (vStr s) = true := by
      simp [pyTruthy, hne]
    simp only [stopwatchRender, hst, e1, if_true, hstart, htr,
      Bool.true_eq_false, not_true, if_false, hiso, formatSeconds, he,
      Option.map_some]
    simp

/-- Witness for the amended C9 at two concrete stopwatches: an unknown
state `"paused"`, and a running stopwatch with unparsable `start_time`. -/
theorem claim_C9_amended_stopwatch_total_witness :
    (stopwatchRender cexStopwatchPaused ⟨2025, 1, 1, 0, 0, 0, 0⟩ = some
      ({ rtype := "text",
         text := pyStr (getProperty cexStopwatchPaused "label"
             (vStr "Stopwatch")) ++ "\n" ++ formatSecondsQ 7,
         color := getProperty cexStopwatchPaused "color"
           (vTup [255, 255, 255]),
         position := (cexStopwatchPaused.x, cexStopwatchPaused.y),
         size := (cexStopwatchPaused.width, cexStopwatchPaused.height) },
       { cexStopwatchPaused with updateInterval := 60 }))
    ∧ (stopwatchRender cexStopwatchBadIso ⟨2025, 1, 1, 0, 0, 0, 0⟩ = some
      ({ rtype := "text",
         text := pyStr (getProperty cexStopwatchBadIso "label"
             (vStr "Stopwatch")) ++ "\n" ++ formatSecondsQ 7,
         color := getProperty cexStopwatchBadIso "color"
           (vTup [255, 255, 255]),
         position := (cexStopwatchBadIso.x, cexStopwatchBadIso.y),
         size := (cexStopwatchBadIso.width, cexStopwatchBadIso.height) },
       { cexStopwatchBadIso with updateInterval := 1 })) :=
  ⟨(claim_C9_amended_stopwatch_total cexStopwatchPaused
      ⟨2025, 1, 1, 0, 0, 0, 0⟩).1 "paused" (by decide) (by decide)
      (by decide) (by decide) 7 (by decide),
   (claim_C9_amended_stopwatch_total cexStopwatchBadIso
      ⟨2025, 1, 1, 0, 0, 0, 0⟩).2 "garbage" (by decide) (by decide)
      (by decide) (by decide) 7 (by decide)⟩

/-- C10 counterexample: with the (schema-violating but storable) property
valuation `font_size = "big"`, both `ClockWidget.get_default_size` and
`WeatherWidget.get_default_size` raise a `TypeError` (string width meets
`min`/`+` against an int) instead of returning a bounded pair — so the
claim quantified over *every* property valuation is false. -/
theorem claim_C10_counterexample :
    getDefaultSize .clock 64 [("font_size", vStr "big")] = none
    ∧ getDefaultSize .weather 64 [("font_size", vStr "big")] = none := by
  constructor <;> rfl

/-- C10 (amended): for every positive screen size and every property
valuation whose `font_size` is numeric (or absent, defaulting to 4 resp.
3), the clock and weather default sizes are defined and bounded by the
screen on both axes. -/
theorem claim_C10_amended_default_size_bounded (screen : Int)
    (props : PropMap) (_hscreen : 0 < screen) :
    (∀ q : Rat, asNum (pyGetD props "font_size" (vInt 4)) = some q →
      ∃ a b, getDefaultSize .clock screen props = some (a, b)
        ∧ a ≤ (screen : Rat) ∧ b ≤ (screen : Rat))
    ∧ (∀ q : Rat, asNum (pyGetD props "font_size" (vInt 3)) = some q →
      ∃ a b, getDefaultSize .weather screen props = some (a, b)
        ∧ a ≤ (screen : Rat) ∧ b ≤ (screen : Rat)) := by
  constructor
  · intro q hq
    simp only [getDefaultSize, hq, Option.map_some]
    exact ⟨_, _, rfl, min_le_right _ _, min_le_right _ _⟩
  · intro q hq
    simp only [getDefaultSize, hq, Option.map_some]
    exact ⟨_, _, rfl, min_le_right _ _, min_le_right _ _⟩

/-- Witness for the amended C10 at screen 64 and the default property
valuation (`font_size` absent, so 4 resp. 3). -/
theorem claim_C10_amended_default_size_bounded_witness :
    (∃ a b, getDefaultSize .clock 64 [] = some (a, b)
      ∧ a ≤ ((64 : Int) : Rat) ∧ b ≤ ((64 : Int) : Rat))
    ∧ (∃ a b, getDefaultSize .weather 64 [] = some (a, b)
      ∧ a ≤ ((64 : Int) : Rat) ∧ b ≤ ((64 : Int) : Rat)) :=
  ⟨(claim_C10_amended_default_size_bounded 64 [] (by decide)).1
      (((4 : Int) : Rat)) rfl,
   (claim_C10_amended_default_size_bounded 64 [] (by decide)).2
      (((3 : Int) : Rat)) rfl⟩

/-- C3 (amended): the widget-level round-trip law
`from_dict(to_dict(w))` holds — exactly, for position, size, visibility,
`z_index`, `update_interval` and the whole `properties` map — for
`ClockWidget`, `DateWidget`, `CountdownWidget`, `StopwatchWidget` and
`WeatherWidget`, whose `from_dict` restores every field.  (It fails for
`SimpleTextWidget`, `ProgressBarWidget` and `SystemStatsWidget`; see the
counterexample.) -/
theorem claim_C3_amended_widget_roundtrip (w : Widget) (now : DateTime) :
    roundtripFieldsEq (clockFromDict (toDict w) now) w
    ∧ roundtripFieldsEq (dateFromDict (toDict w) now) w
    ∧ roundtripFieldsEq (countdownFromDict (toDict w) now) w
    ∧ roundtripFieldsEq (stopwatchFromDict (toDict w) now) w
    ∧ roundtripFieldsEq (weatherFromDict (toDict w)) w := by
  refine ⟨?_, ?_, ?_, ?_, ?_⟩ <;>
    exact ⟨rfl, rfl, rfl, rfl, rfl, rfl, rfl, rfl⟩

/-- C3 counterexample: `ProgressBarWidget.from_dict(to_dict(w))` does not
reproduce `z_index` (nor `visible`, `update_interval`, or the properties):
the round-trip of a widget with `z_index = 5`, `visible = False`,
`update_interval = 30` comes back with `z_index = 0`, `visible = True`,
`update_interval = 60`, refuting the law as stated for every plugin
widget type. -/
theorem claim_C3_counterexample :
    (progressBarFromDict (toDict cexProgressBar)).map Widget.zIndex = some 0
    ∧ cexProgressBar.zIndex = 5
    ∧ (progressBarFromDict (toDict cexProgressBar)).map Widget.visible
        = some true
    ∧ cexProgressBar.visible = false
    ∧ (progressBarFromDict (toDict cexProgressBar)).map Widget.updateInterval
        = some 60
    ∧ cexProgressBar.updateInterval = 30 := by
  refine ⟨rfl, rfl, rfl, rfl, rfl, rfl⟩

theorem loadFold_length (ws : List WidgetDict) (screen : Int)
    (now : DateTime) (acc : Layout) :
    (ws.foldl (fun acc wd =>
        match createWidget wd.wtype wd screen now with
        | some w => addWidget acc w
        | none => acc) acc).widgets.length
      = acc.widgets.length
        + ws.countP (fun wd => (createWidget wd.wtype wd screen now).isSome) := by
  induction ws generalizing acc with
  | nil => simp
  | cons wd rest ih =>
    simp only [List.foldl_cons, List.countP_cons]
    cases h : createWidget wd.wtype wd screen now with
    | some w =>
      simp only [ih]
      simp [addWidget, length_sortZ]
      omega
    | none =>
      simp only [ih]
      simp

/-- C2 (amended): `LayoutManager.from_dict` yields exactly one widget per
entry for which the factory produces a widget — never raising — and every
entry whose `type` does not resolve in the registry is skipped. (An entry
whose type *does* resolve can also be skipped when its extra top-level
keys make the widget constructor raise; see the counterexample, which
refutes the claim's "exactly N" count.) -/
theorem claim_C2_amended_unknown_type_resilience (d : LayoutDict)
    (now : DateTime) :
    (layoutFromDict d now).widgets.length
      = d.widgets.countP (fun wd =>
          (createWidget wd.wtype wd (d.screenSize.getD 64) now).isSome)
    ∧ (∀ wd ∈ d.widgets, ∀ nm : String, wd.wtype = some nm →
        getWidgetClass loadedPluginManager nm = none →
        createWidget wd.wtype wd (d.screenSize.getD 64) now = none) := by
  constructor
  · simp only [layoutFromDict]
    rw [loadFold_length]
    simp
  · intro wd _ nm hnm hcls
    simp [createWidget, hnm, hcls]

/-- C2 counterexample: the single entry's type `"Clock"` resolves in the
registry (`N = 1`, `M = 0`), yet `from_dict` returns a layout with 0
widgets because the constructor call fails on the unexpected keyword —
refuting "exactly N widgets" as stated. -/
theorem claim_C2_counterexample :
    getWidgetClass loadedPluginManager "Clock" = some WType.clock
    ∧ (layoutFromDict cexLayoutDict ⟨2025, 1, 1, 0, 0, 0, 0⟩).widgets.length
        = 0 := by
  exact ⟨rfl, rfl⟩

theorem claim_C2_amended_unknown_type_resilience_witness :
    (layoutFromDict cexLayoutDictMixed ⟨2025, 1, 1, 0, 0, 0, 0⟩).widgets.length
      = cexLayoutDictMixed.widgets.countP (fun wd =>
          (createWidget wd.wtype wd (cexLayoutDictMixed.screenSize.getD 64)
            ⟨2025, 1, 1, 0, 0, 0, 0⟩).isSome)
    ∧ createWidget cexEntryUnknown.wtype cexEntryUnknown
        (cexLayoutDictMixed.screenSize.getD 64) ⟨2025, 1, 1, 0, 0, 0, 0⟩
        = none :=
  ⟨(claim_C2_amended_unknown_type_resilience cexLayoutDictMixed
      ⟨2025, 1, 1, 0, 0, 0, 0⟩).1,
   (claim_C2_amended_unknown_type_resilience cexLayoutDictMixed
      ⟨2025, 1, 1, 0, 0, 0, 0⟩).2 cexEntryUnknown (by simp [cexLayoutDictMixed])
      "NopeWidget" rfl rfl⟩

/-- C1: the layout-level round trip loses every widget whose class does
not override `to_dict` with its plugin name. `to_dict` serializes the
class name `"ClockWidget"`, but the registry maps only plugin metadata
names (`"Clock"`), so `from_dict(to_dict(layout))` resolves nothing and
returns an empty layout — for any `now`. -/
theorem claim_C1_roundtrip_loses_builtin_widgets :
    cexClockLayout.widgets.length = 1
    ∧ (toDict cexClockWidget).wtype = some "ClockWidget"
    ∧ getWidgetClass loadedPluginManager "ClockWidget" = none
    ∧ getWidgetClass loadedPluginManager "Clock" = some WType.clock
    ∧ ∀ now : DateTime,
        (layoutFromDict (layoutToDict cexClockLayout) now).widgets.length
          = 0 := by
  exact ⟨rfl, rfl, rfl, rfl, fun now => rfl⟩

end Pixoomat
